import Mathlib

/-!
Verification development for the RFID laundry locker controller
(laundry_locker_api.py). The Python source is shallowly embedded:
timestamps are rationals counted in seconds, the card queue and the
persisted collections are Lean lists, and the best-effort side effects
(database save, telemetry post, relay actuation) are recorded as an
explicit effect trace whose success flags are inputs of the model.
-/

set_option linter.unusedVariables false

/-- Python str.strip over the character list of a string
(leading and trailing whitespace removed). -/
def stripChars (l : List Char) : List Char :=
  ((l.dropWhile Char.isWhitespace).reverse.dropWhile Char.isWhitespace).reverse

/-- Python str.strip. -/
def pyStrip (s : String) : String :=
  String.mk (stripChars s.data)

/-- Python str.lower. -/
def pyLower (s : String) : String :=
  String.mk (s.data.map Char.toLower)

/-- One entry of the RFID read queue: the dictionaries the reader thread
appends to self.card_queue. -/
structure CardRead where
  card_id : String
  timestamp : ℚ
  read_count : Nat
deriving Repr, DecidableEq

/-- The duplicate scan of rfid_reader_loop: walk the queue front to back,
and at the first entry with the same card id whose age is strictly under
2 seconds, refresh that entry timestamp and stop. Returns none when no
entry qualifies (then the caller appends a fresh entry). -/
def markDuplicate (card_id : String) (now : ℚ) : List CardRead → Option (List CardRead)
  | [] => none
  | c :: cs =>
    if c.card_id == card_id && decide (now - c.timestamp < 2) then
      some ({ c with timestamp := now } :: cs)
    else
      (markDuplicate card_id now cs).map (fun q => c :: q)

/-- The queue update performed by rfid_reader_loop for one detected card:
duplicate handling within 2 seconds, otherwise append an entry with
read_count 1, then cap the queue at 10 entries by popping the oldest. -/
def enqueueCard (card_id : String) (now : ℚ) (queue : List CardRead) : List CardRead :=
  let q :=
    match markDuplicate card_id now queue with
    | some q => q
    | none => queue ++ [{ card_id := card_id, timestamp := now, read_count := 1 }]
  if q.length > 10 then q.drop 1 else q

/-- get_last_card of RFIDLockerSystem: backward scan for a multi-read entry
inside the validity window, else the most recent entry if inside the
window, else none. -/
def get_last_card (validity now : ℚ) (queue : List CardRead) : Option CardRead :=
  if queue.isEmpty then none
  else
    match queue.reverse.find? (fun c =>
        decide (1 < c.read_count) && decide (now - c.timestamp ≤ validity)) with
    | some c => some c
    | none =>
      match queue.getLast? with
      | none => none
      | some c => if now - c.timestamp ≤ validity then some c else none

/-- Modelled from the words of the specification, for comparison with the
code: scan newest-to-oldest and return the first entry with read_count
above 1 whose age is within the validity window; if none qualifies,
return the single most recent entry if its age is within the window,
otherwise no card. -/
def getLastCardSpec (validity now : ℚ) (queue : List CardRead) : Option CardRead :=
  match queue.reverse.find? (fun c =>
      decide (1 < c.read_count) && decide (now - c.timestamp ≤ validity)) with
  | some c => some c
  | none =>
    match queue.getLast? with
    | none => none
    | some c => if now - c.timestamp ≤ validity then some c else none

/-- Mutable state of the reader thread of rfid_reader_loop, together with
the health counters of the system object it updates. -/
structure ReaderState where
  consecutive_errors : Nat
  last_successful_read : Option ℚ
  read_interval : ℚ
  card_queue : List CardRead
  rfid_errors : Nat
  rfid_reads_attempted : Nat
  rfid_reads_successful : Nat
deriving Repr, DecidableEq

/-- Result of one non-blocking poll of the hardware. -/
inductive ReadEvent where
  | card (id : String)
  | noCard
  | failure
deriving Repr, DecidableEq

/-- Observable actions of one loop iteration: whether the hardware
re-setup path was invoked (and with which outcome), and the sleeps. -/
structure StepLog where
  attempted_reinit : Bool
  reinit_result : Option Bool
  sleeps : List ℚ
deriving Repr, DecidableEq

/-- One iteration of rfid_reader_loop. The poll outcome is the event;
reinitOk is the result the hardware re-setup would report if invoked
(the code ignores it and keeps looping either way). -/
def readerStep (now : ℚ) (ev : ReadEvent) (reinitOk : Bool) (s : ReaderState) :
    ReaderState × StepLog :=
  let current_interval := s.read_interval * (1 + ((min s.consecutive_errors 5 : Nat) : ℚ))
  match ev with
  | .card id =>
    ({ s with
        rfid_reads_attempted := s.rfid_reads_attempted + 1,
        card_queue := enqueueCard id now s.card_queue,
        rfid_reads_successful := s.rfid_reads_successful + 1,
        last_successful_read := some now,
        consecutive_errors := 0,
        read_interval := 1/20 },
     { attempted_reinit := false, reinit_result := none, sleeps := [current_interval] })
  | .noCard =>
    ({ s with
        rfid_reads_attempted := s.rfid_reads_attempted + 1,
        read_interval := min (s.read_interval * (11/10)) (1/10) },
     { attempted_reinit := false, reinit_result := none, sleeps := [current_interval] })
  | .failure =>
    let ce := s.consecutive_errors + 1
    let s' := { s with
        rfid_reads_attempted := s.rfid_reads_attempted + 1,
        consecutive_errors := ce,
        rfid_errors := s.rfid_errors + 1 }
    if ce < 5 then
      (s', { attempted_reinit := false, reinit_result := none, sleeps := [1/2] })
    else if ce < 20 then
      (s', { attempted_reinit := false, reinit_result := none, sleeps := [1] })
    else if ce % 20 == 0 then
      (s', { attempted_reinit := true, reinit_result := some reinitOk, sleeps := [2, 2] })
    else
      (s', { attempted_reinit := false, reinit_result := none, sleeps := [2] })

/-- Reader thread state at the top of rfid_reader_loop: zero errors and
the base 0.1 second poll interval. -/
def startReaderState : ReaderState :=
  { consecutive_errors := 0, last_successful_read := none, read_interval := 1/10,
    card_queue := [], rfid_errors := 0, rfid_reads_attempted := 0,
    rfid_reads_successful := 0 }

/-- Run n consecutive failing iterations and collect, per iteration,
whether the hardware re-setup path was invoked. -/
def runFailures (reinitOk : Bool) (now : ℚ) : Nat → ReaderState → List Bool
  | 0, _ => []
  | n + 1, s =>
    (readerStep now .failure reinitOk s).2.attempted_reinit ::
      runFailures reinitOk now n (readerStep now .failure reinitOk s).1

/-- Relay drive level. Relays are active LOW in the code. -/
inductive GpioLevel where
  | low
  | high
deriving Repr, DecidableEq

/-- Externally visible actuator behaviour of unlock_locker. -/
inductive GpioAction where
  | output (pin : Nat) (level : GpioLevel)
  | sleepFor (seconds : ℚ)
deriving Repr, DecidableEq

/-- unlock_locker of RFIDLockerSystem: reject unknown locker ids, else
drive the relay low, hold for the configured duration, drive it high. -/
def unlock_locker (relay_pins : List (String × Nat)) (unlock_duration : ℚ)
    (locker_id : String) : Bool × List GpioAction :=
  match relay_pins.find? (fun p => p.1 == locker_id) with
  | none => (false, [])
  | some p =>
    (true, [.output p.2 .low, .sleepFor unlock_duration, .output p.2 .high])

/-- Value of one active_cards entry: card id maps to this record. -/
structure CardInfo where
  locker_id : String
  transaction_id : String
deriving Repr, DecidableEq

/-- A wash type record from the catalog (local config or server). -/
structure WashType where
  id : Nat
  name : String
  price : ℚ
  estimated_time : Option ℚ
deriving Repr, DecidableEq

/-- A persisted transaction record (LockerTransaction.to_dict). -/
structure Transaction where
  transaction_id : String
  card_id : String
  locker_id : String
  wash_type : Option WashType
  status : String
  drop_off_time : ℚ
  pickup_time : Option ℚ
  estimated_completion_time : Option ℚ
deriving Repr, DecidableEq

/-- LockerTransaction.__init__ with the fresh uuid passed in explicitly;
estimated completion only when the wash type carries an estimated_time,
counted in minutes. -/
def mkTransaction (txId card_id locker_id : String) (wash_type : Option WashType)
    (now : ℚ) : Transaction :=
  { transaction_id := txId, card_id := card_id, locker_id := locker_id,
    wash_type := wash_type, status := "pending", drop_off_time := now,
    pickup_time := none,
    estimated_completion_time :=
      wash_type.bind (fun wt => wt.estimated_time.map (fun m => now + 60 * m)) }

/-- The persisted shared state self.data: active_cards is an insertion
ordered dictionary modelled as an association list. -/
structure SysState where
  active_cards : List (String × CardInfo)
  transactions : List Transaction
  available_lockers : List String
deriving Repr, DecidableEq

/-- Outcomes of the best-effort collaborators during one operation:
whether the database save and the telemetry post would succeed. -/
structure Env where
  saveOk : Bool
  telemetryOk : Bool
deriving Repr, DecidableEq

/-- Side effects an operation performs, in program order. -/
inductive Effect where
  | save (ok : Bool)
  | telemetry (action : String) (ok : Bool)
  | unlock (locker_id : String)
deriving Repr, DecidableEq

/-- Result of assign_card_to_locker or process_pickup: the (success,
message) pair the route returns, the state left behind, and the
side-effect trace. -/
structure Outcome where
  success : Bool
  message : String
  state : SysState
  effects : List Effect
deriving Repr, DecidableEq

/-- Python dictionary key membership on the association list. -/
def dictContains (d : List (String × CardInfo)) (k : String) : Bool :=
  d.any (fun p => p.1 == k)

/-- Python dictionary assignment d[k] = v: replace in place when the key
exists, else append at the end (insertion order). -/
def dictInsert (d : List (String × CardInfo)) (k : String) (v : CardInfo) :
    List (String × CardInfo) :=
  if dictContains d k then d.map (fun p => if p.1 == k then (k, v) else p)
  else d ++ [(k, v)]

/-- Python del d[k]. -/
def dictErase (d : List (String × CardInfo)) (k : String) :
    List (String × CardInfo) :=
  d.filter (fun p => p.1 != k)

/-- The guarded append the pickup paths use to return a locker to the
available list. -/
def addIfAbsent (l : List String) (x : String) : List String :=
  if l.contains x then l else l ++ [x]

/-- check_card_already_assigned of RFIDLockerSystem: exact key lookup,
then case-insensitive key lookup, then a scan of the non-completed
transactions by card id. -/
def check_card_already_assigned (s : SysState) (card_id : String) : Bool :=
  let c := pyStrip card_id
  if dictContains s.active_cards c then true
  else if s.active_cards.any (fun p => pyLower p.1 == pyLower c) then true
  else s.transactions.any (fun t =>
    t.status != "completed" && (pyLower (pyStrip t.card_id) == pyLower c))

/-- assign_card_to_locker of RFIDLockerSystem. The wash type catalog
(get_wash_types) and the fresh transaction id are inputs of the model. -/
def assign_card_to_locker (env : Env) (washTypes : List WashType) (txId : String)
    (now : ℚ) (card_id locker_id : String) (wash_type_id : Nat) (s : SysState) :
    Outcome :=
  let card := pyStrip card_id
  if check_card_already_assigned s card then
    { success := false, message := "Card already assigned to another locker",
      state := s, effects := [] }
  else if !(s.available_lockers.contains locker_id) then
    { success := false, message := "Locker not available", state := s, effects := [] }
  else
    match washTypes.find? (fun wt => wt.id == wash_type_id) with
    | none =>
      { success := false, message := "Invalid wash type", state := s, effects := [] }
    | some wt =>
      { success := true,
        message := "Card assigned to locker " ++ locker_id ++ " with "
          ++ wt.name ++ " service",
        state :=
          { active_cards :=
              dictInsert s.active_cards card
                { locker_id := locker_id, transaction_id := txId },
            transactions := s.transactions ++ [mkTransaction txId card locker_id (some wt) now],
            available_lockers :=
              if s.available_lockers.contains locker_id then
                s.available_lockers.erase locker_id
              else s.available_lockers },
        effects := [.save env.saveOk, .telemetry "new_transaction" env.telemetryOk] }

/-- The card resolution at the top of process_pickup: exact key match,
else the first case-insensitive key match, together with its record. -/
def resolveActive (active : List (String × CardInfo)) (c0 : String) :
    Option (String × CardInfo) :=
  if dictContains active c0 then active.find? (fun p => p.1 == c0)
  else active.find? (fun p => pyLower p.1 == pyLower c0)

/-- The in-place transaction update of process_pickup: walk the list,
and at the first record satisfying p, set status completed and the
pickup time, returning the original record and the updated list. -/
def completeFirst (p : Transaction → Bool) (now : ℚ) :
    List Transaction → Option (Transaction × List Transaction)
  | [] => none
  | t :: ts =>
    if p t then some (t, { t with status := "completed", pickup_time := some now } :: ts)
    else (completeFirst p now ts).map (fun r => (r.1, t :: r.2))

/-- process_pickup of RFIDLockerSystem: primary path by recorded
transaction id, fallback by card id over non-completed transactions,
then the force-reset repair path, else failure. -/
def process_pickup (env : Env) (now : ℚ) (card_id : String) (s : SysState) : Outcome :=
  match resolveActive s.active_cards card_id with
  | none =>
    { success := false, message := "Card not associated with any locker",
      state := s, effects := [] }
  | some (c, info) =>
    match completeFirst (fun t => t.transaction_id == info.transaction_id) now
        s.transactions with
    | some r =>
      { success := true,
        message := "Clothes picked up from locker " ++ info.locker_id,
        state :=
          { active_cards := dictErase s.active_cards c,
            transactions := r.2,
            available_lockers := addIfAbsent s.available_lockers info.locker_id },
        effects := [.unlock info.locker_id, .save env.saveOk,
          .telemetry "pickup_complete" env.telemetryOk] }
    | none =>
      match completeFirst (fun t => t.card_id == c && t.status != "completed") now
          s.transactions with
      | some r =>
        { success := true,
          message := "Clothes picked up from locker " ++ r.1.locker_id ++ " (fallback)",
          state :=
            { active_cards :=
                if dictContains s.active_cards c then dictErase s.active_cards c
                else s.active_cards,
              transactions := r.2,
              available_lockers := addIfAbsent s.available_lockers r.1.locker_id },
          effects := [.unlock r.1.locker_id, .save env.saveOk] }
      | none =>
        if dictContains s.active_cards c then
          { success := true,
            message := "Locker " ++ info.locker_id ++ " unlocked and reset",
            state :=
              { active_cards := dictErase s.active_cards c,
                transactions := s.transactions,
                available_lockers := addIfAbsent s.available_lockers info.locker_id },
            effects := [.save env.saveOk] }
        else
          { success := false, message := "Transaction not found", state := s, effects := [] }

/-- The drop_off route: duplicate check, pool check, first free locker
in iteration order, then assign_card_to_locker, then the actuator. The
second component is the locker_id field of the JSON reply. -/
def drop_off (env : Env) (washTypes : List WashType) (txId : String) (now : ℚ)
    (card_id : String) (wash_type_id : Nat) (s : SysState) : Outcome × Option String :=
  let card := pyStrip card_id
  if check_card_already_assigned s card then
    let lid := ((s.active_cards.find? (fun p => pyLower p.1 == pyLower card)).map
      (fun p => p.2.locker_id)).getD "unknown"
    ({ success := false,
       message := "This card already has clothes in locker " ++ lid
         ++ ". Please use the pickup process first.",
       state := s, effects := [] }, none)
  else
    match s.available_lockers with
    | [] =>
      ({ success := false, message := "No lockers available", state := s,
         effects := [] }, none)
    | locker :: _ =>
      let o := assign_card_to_locker env washTypes txId now card_id locker wash_type_id s
      if o.success then ({ o with effects := o.effects ++ [.unlock locker] }, some locker)
      else (o, none)

/-- Which lockers the active assignments occupy. -/
def refersTo (active : List (String × CardInfo)) (L : String) : Prop :=
  ∃ p ∈ active, p.2.locker_id = L

/-- States reachable from the fresh database (no active cards, no
transactions, every configured locker free) by any interleaving of
assignments and pickups. -/
inductive Reachable (cfg : List String) : SysState → Prop
  | start : Reachable cfg { active_cards := [], transactions := [], available_lockers := cfg }
  | assign (env : Env) (washTypes : List WashType) (txId : String) (now : ℚ)
      (card_id locker_id : String) (wash_type_id : Nat) (s : SysState) :
      Reachable cfg s →
      Reachable cfg (assign_card_to_locker env washTypes txId now card_id locker_id
        wash_type_id s).state
  | pickup (env : Env) (now : ℚ) (card_id : String) (s : SysState) :
      Reachable cfg s →
      Reachable cfg (process_pickup env now card_id s).state

/-- The conjunction of facts about the shared collections that every
reachable state satisfies; pool_disj and pool_cover together are the
free/occupied partition of the configured lockers. -/
structure StateInv (cfg : List String) (s : SysState) : Prop where
  pool_disj : ∀ L ∈ s.available_lockers, ¬ refersTo s.active_cards L
  pool_cover : ∀ L ∈ cfg, L ∈ s.available_lockers ∨ refersTo s.active_cards L
  tx_exists : ∀ p ∈ s.active_cards,
    ∃ t ∈ s.transactions, t.transaction_id = p.2.transaction_id
  keys_nodup : (s.active_cards.map Prod.fst).Nodup
  lockers_nodup : (s.active_cards.map (fun p => p.2.locker_id)).Nodup
  pool_nodup : s.available_lockers.Nodup

/-!  Theorems. First a kit of small facts about the embedded helpers.  -/

theorem dropWhile_head?_false (p : α → Bool) :
    ∀ (l : List α) (c : α), (l.dropWhile p).head? = some c → p c = false := by
  intro l
  induction l with
  | nil => intro c h; simp [List.dropWhile] at h
  | cons x xs ih =>
    intro c h
    by_cases hx : p x = true
    · simp only [List.dropWhile_cons, if_pos hx] at h
      exact ih c h
    · simp only [List.dropWhile_cons, if_neg hx] at h
      simp at h
      rw [← h]
      simpa using hx

theorem dropWhile_eq_self_of_head? (p : α → Bool) (l : List α) (c : α)
    (h : l.head? = some c) (hc : p c = false) : l.dropWhile p = l := by
  cases l with
  | nil => simp at h
  | cons x xs =>
    simp at h
    subst h
    simp [List.dropWhile_cons, hc]

theorem stripChars_idem (l : List Char) : stripChars (stripChars l) = stripChars l := by
  unfold stripChars
  set B := l.dropWhile Char.isWhitespace with hB
  set C := B.reverse.dropWhile Char.isWhitespace with hC
  cases hC0 : C with
  | nil => simp [hC0]
  | cons c0 cs =>
    have hc0 : Char.isWhitespace c0 = false := by
      refine dropWhile_head?_false _ B.reverse c0 ?_
      rw [← hC, hC0]; rfl
    have hBne : B ≠ [] := by
      intro hn
      rw [hC, hn] at hC0
      simp at hC0
    obtain ⟨b, hb⟩ : ∃ b, B.head? = some b := by
      cases hBB : B with
      | nil => exact absurd hBB hBne
      | cons x xs => exact ⟨x, rfl⟩
    have hwb : Char.isWhitespace b = false := by
      refine dropWhile_head?_false _ l b ?_
      rw [← hB]; exact hb
    have hsuf : List.IsSuffix C B.reverse := by
      rw [hC]; exact List.dropWhile_suffix _
    obtain ⟨t, ht⟩ := hsuf
    have hlast : C.getLast? = some b := by
      have h1 : (t ++ C).getLast? = C.getLast? :=
        List.getLast?_append_of_ne_nil t (by rw [hC0]; simp)
      rw [ht, List.getLast?_reverse, hb] at h1
      exact h1.symm
    have hhead : C.reverse.head? = some b := by
      rw [List.head?_reverse, hlast]
    have e1 : C.reverse.dropWhile Char.isWhitespace = C.reverse :=
      dropWhile_eq_self_of_head? _ _ b hhead hwb
    have e2 : C.dropWhile Char.isWhitespace = C :=
      dropWhile_eq_self_of_head? _ _ c0 (by rw [hC0]; rfl) hc0
    rw [← hC0, e1, List.reverse_reverse, e2]

theorem pyStrip_idem (s : String) : pyStrip (pyStrip s) = pyStrip s := by
  show String.mk (stripChars (stripChars s.data)) = String.mk (stripChars s.data)
  rw [stripChars_idem]

theorem length_le_one_eq (l : List α) (h : l.length ≤ 1) (a b : α)
    (ha : a ∈ l) (hb : b ∈ l) : a = b := by
  cases l with
  | nil => cases ha
  | cons x t =>
    cases t with
    | nil =>
      simp at ha hb
      rw [ha, hb]
    | cons y u => simp at h

theorem dictContains_iff (d : List (String × CardInfo)) (k : String) :
    dictContains d k = true ↔ k ∈ d.map Prod.fst := by
  simp [dictContains, List.any_eq_true, List.mem_map, beq_iff_eq]

theorem dictContains_of_key_mem (d : List (String × CardInfo)) (k : String)
    (v : CardInfo) (h : (k, v) ∈ d) : dictContains d k = true := by
  rw [dictContains_iff]
  exact List.mem_map.mpr ⟨(k, v), h, rfl⟩

theorem mem_dictErase (d : List (String × CardInfo)) (k : String) (q : String × CardInfo) :
    q ∈ dictErase d k ↔ q ∈ d ∧ q.1 ≠ k := by
  simp [dictErase, List.mem_filter]

theorem completeFirst_eq_none (p : Transaction → Bool) (now : ℚ) :
    ∀ ts : List Transaction, completeFirst p now ts = none ↔ ∀ t ∈ ts, p t = false := by
  intro ts
  induction ts with
  | nil => simp [completeFirst]
  | cons t ts ih =>
    by_cases h : p t = true
    · simp [completeFirst, h]
    · have hf : p t = false := by simpa using h
      simp [completeFirst, h, ih, hf]

theorem completeFirst_exists (p : Transaction → Bool) (now : ℚ) (ts : List Transaction)
    (h : ∃ t ∈ ts, p t = true) : ∃ r, completeFirst p now ts = some r := by
  cases hc : completeFirst p now ts with
  | some r => exact ⟨r, rfl⟩
  | none =>
    rw [completeFirst_eq_none] at hc
    obtain ⟨t, ht, hp⟩ := h
    rw [hc t ht] at hp
    cases hp

theorem completeFirst_ids (p : Transaction → Bool) (now : ℚ) :
    ∀ (ts : List Transaction) (r : Transaction × List Transaction),
      completeFirst p now ts = some r →
      r.2.map (fun t => t.transaction_id) = ts.map (fun t => t.transaction_id) := by
  intro ts
  induction ts with
  | nil => intro r h; simp [completeFirst] at h
  | cons t ts ih =>
    intro r h
    by_cases hp : p t = true
    · simp [completeFirst, hp] at h
      rw [← h]
      simp
    · simp [completeFirst, hp] at h
      obtain ⟨a, b, hcf, heq⟩ := h
      rw [← heq]
      simp [ih (a, b) hcf]

theorem resolveActive_mem (active : List (String × CardInfo)) (c0 c : String)
    (info : CardInfo) (h : resolveActive active c0 = some (c, info)) :
    (c, info) ∈ active := by
  by_cases hd : dictContains active c0 = true
  · simp only [resolveActive, hd, if_true] at h
    exact List.mem_of_find?_eq_some h
  · simp only [resolveActive, hd, if_false, Bool.false_eq_true] at h
    exact List.mem_of_find?_eq_some h

theorem resolveActive_lower (active : List (String × CardInfo)) (c0 c : String)
    (info : CardInfo) (h : resolveActive active c0 = some (c, info)) :
    pyLower c = pyLower c0 := by
  by_cases hd : dictContains active c0 = true
  · simp only [resolveActive, hd, if_true] at h
    have hp := List.find?_some h
    simp at hp
    rw [hp]
  · simp only [resolveActive, hd, if_false, Bool.false_eq_true] at h
    have hp := List.find?_some h
    simpa using hp

theorem check_false_not_contains (s : SysState) (x : String)
    (h : check_card_already_assigned s x = false) :
    dictContains s.active_cards (pyStrip x) = false := by
  by_cases hd : dictContains s.active_cards (pyStrip x) = true
  · simp [check_card_already_assigned, hd] at h
  · simpa using hd

theorem mem_addIfAbsent_self (l : List String) (x : String) : x ∈ addIfAbsent l x := by
  by_cases h : l.contains x = true
  · rw [addIfAbsent, if_pos h]
    simpa using h
  · rw [addIfAbsent, if_neg h]
    simp

theorem mem_addIfAbsent_iff (l : List String) (x y : String) :
    y ∈ addIfAbsent l x ↔ y ∈ l ∨ y = x := by
  by_cases h : l.contains x = true
  · rw [addIfAbsent, if_pos h]
    constructor
    · exact Or.inl
    · rintro (hy | rfl)
      · exact hy
      · simpa using h
  · rw [addIfAbsent, if_neg h]
    simp

/-- Claim C1, code evidence: the duplicate branch of the reader loop only
refreshes the timestamp of the cached entry and never increments its
read_count. Presenting card A1 at t = 0 and again at t = 1 (within the
2 second window) leaves exactly one entry, but with read_count 1, not 2;
presenting it again at t = 4 (more than 2 seconds later) does append a
second distinct entry as claimed. -/
theorem dedup_leaves_read_count_one :
    enqueueCard "A1" 1 (enqueueCard "A1" 0 [])
      = [{ card_id := "A1", timestamp := 1, read_count := 1 }]
    ∧ enqueueCard "A1" 4 (enqueueCard "A1" 1 (enqueueCard "A1" 0 []))
      = [{ card_id := "A1", timestamp := 1, read_count := 1 },
         { card_id := "A1", timestamp := 4, read_count := 1 }] := by
  constructor <;> norm_num [enqueueCard, markDuplicate]

/-- Claim C2: get_last_card scans newest-to-oldest for the first entry
with read_count above 1 within the validity window, otherwise falls back
to the most recent entry within the window, otherwise none; and on the
ranking scenario (a multi-read entry of age 10 and a single-read entry of
age 1, window 30) it returns the multi-read entry. -/
theorem get_last_card_matches_spec :
    (∀ validity now queue, get_last_card validity now queue = getLastCardSpec validity now queue)
    ∧ get_last_card 30 100
        [{ card_id := "A1", timestamp := 90, read_count := 2 },
         { card_id := "B2", timestamp := 99, read_count := 1 }]
      = some { card_id := "A1", timestamp := 90, read_count := 2 } := by
  constructor
  · intro validity now queue
    cases queue <;> rfl
  · norm_num [get_last_card]

/-- Claim C7: in the reader loop, an iteration invokes the hardware
re-setup exactly when its error counter reaches a positive multiple of
20; a run of 25 consecutive failures triggers it exactly at the 20th
(even when the re-setup itself fails); the loop state after an iteration
does not depend on the re-setup outcome, so a failed re-setup never
stops the retrying; and an iteration that reads a card resets the error
counter to zero and records the last successful read time. -/
theorem rfid_reader_fault_recovery :
    (∀ now r s, ((readerStep now .failure r s).2.attempted_reinit = true
        ↔ 0 < (readerStep now .failure r s).1.consecutive_errors
          ∧ (readerStep now .failure r s).1.consecutive_errors % 20 = 0))
    ∧ runFailures false 0 25 startReaderState
        = List.replicate 19 false ++ true :: List.replicate 5 false
    ∧ (∀ now ev s, (readerStep now ev true s).1 = (readerStep now ev false s).1)
    ∧ (∀ now id r s, (readerStep now (.card id) r s).1.consecutive_errors = 0
        ∧ (readerStep now (.card id) r s).1.last_successful_read = some now) := by
  refine ⟨?_, ?_, ?_, ?_⟩
  · intro now r s
    by_cases h1 : s.consecutive_errors + 1 < 5
    · simp [readerStep, h1]
      omega
    · by_cases h2 : s.consecutive_errors + 1 < 20
      · simp [readerStep, h1, h2]
        omega
      · by_cases h3 : (s.consecutive_errors + 1) % 20 = 0
        · simp [readerStep, h1, h2, h3]
        · simp [readerStep, h1, h2, h3]
  · rfl
  · intro now ev s
    cases ev <;> simp only [readerStep] <;> split_ifs <;> rfl
  · intro now id r s
    exact ⟨rfl, rfl⟩

/-- Claim C10: unlock_locker on a locker id missing from the relay pin
map returns false without any actuator action; on a configured locker it
performs the low, hold, high sequence on that relay pin and returns
true. -/
theorem unlock_locker_guard :
    ∀ (relay_pins : List (String × Nat)) (dur : ℚ) (locker_id : String),
      ((∀ p ∈ relay_pins, p.1 ≠ locker_id) →
        unlock_locker relay_pins dur locker_id = (false, []))
      ∧ (∀ kp, relay_pins.find? (fun p => p.1 == locker_id) = some kp →
          unlock_locker relay_pins dur locker_id
            = (true, [.output kp.2 .low, .sleepFor dur, .output kp.2 .high])) := by
  intro pins dur lid
  constructor
  · intro h
    have hn : pins.find? (fun p => p.1 == lid) = none := by
      rw [List.find?_eq_none]
      intro p hp
      simpa using h p hp
    simp [unlock_locker, hn]
  · intro kp h
    simp [unlock_locker, h]

/-- Witness for claim C10 at the default configuration: locker 3 is not
configured and is rejected with no actuator output; locker 1 is
configured on pin 17 and drives the full sequence. -/
theorem unlock_locker_guard_witness :
    unlock_locker [("1", 17), ("2", 27)] 5 "3" = (false, [])
    ∧ unlock_locker [("1", 17), ("2", 27)] 5 "1"
      = (true, [.output 17 .low, .sleepFor 5, .output 17 .high]) := by
  constructor
  · exact (unlock_locker_guard [("1", 17), ("2", 27)] 5 "3").1 (by decide)
  · exact (unlock_locker_guard [("1", 17), ("2", 27)] 5 "1").2 ("1", 17) (by decide)

/-- Claim C8: the result (success flag and message) and the in-memory
state left by assign_card_to_locker and by process_pickup are identical
whatever the outcomes of the database save and of the telemetry post:
those outcomes only show up in the effect trace, never in the result or
the state. -/
theorem persistence_telemetry_independent :
    (∀ e1 e2 washTypes txId now card_id locker_id wash_type_id s,
      (assign_card_to_locker e1 washTypes txId now card_id locker_id wash_type_id s).success
        = (assign_card_to_locker e2 washTypes txId now card_id locker_id wash_type_id s).success
      ∧ (assign_card_to_locker e1 washTypes txId now card_id locker_id wash_type_id s).message
        = (assign_card_to_locker e2 washTypes txId now card_id locker_id wash_type_id s).message
      ∧ (assign_card_to_locker e1 washTypes txId now card_id locker_id wash_type_id s).state
        = (assign_card_to_locker e2 washTypes txId now card_id locker_id wash_type_id s).state)
    ∧ (∀ e1 e2 now card_id s,
      (process_pickup e1 now card_id s).success = (process_pickup e2 now card_id s).success
      ∧ (process_pickup e1 now card_id s).message = (process_pickup e2 now card_id s).message
      ∧ (process_pickup e1 now card_id s).state = (process_pickup e2 now card_id s).state) := by
  constructor
  · intro e1 e2 washTypes txId now card_id locker_id wash_type_id s
    by_cases h1 : check_card_already_assigned s (pyStrip card_id) = true
    · simp [assign_card_to_locker, h1]
    · by_cases h2 : locker_id ∈ s.available_lockers
      · cases hw : washTypes.find? (fun wt => wt.id == wash_type_id) with
        | none => simp [assign_card_to_locker, h1, h2, hw]
        | some wt => simp [assign_card_to_locker, h1, h2, hw]
      · simp [assign_card_to_locker, h1, h2]
  · intro e1 e2 now card_id s
    cases hr : resolveActive s.active_cards card_id with
    | none => simp [process_pickup, hr]
    | some p =>
      obtain ⟨c, info⟩ := p
      cases h1 : completeFirst (fun t => t.transaction_id == info.transaction_id) now
          s.transactions with
      | some r => simp [process_pickup, hr, h1]
      | none =>
        cases h2 : completeFirst (fun t => t.card_id == c && t.status != "completed") now
            s.transactions with
        | some r => simp [process_pickup, hr, h1, h2]
        | none =>
          by_cases h3 : dictContains s.active_cards c = true
          · simp [process_pickup, hr, h1, h2, h3]
          · simp [process_pickup, hr, h1, h2, h3]

/-- Claim C3: the three preconditions of assign_card_to_locker are
checked in order (card already active via check_card_already_assigned,
then availability of the requested locker, then wash type resolution),
and on any precondition failure the call returns a failed result with
the corresponding message and mutates nothing: the state is returned
untouched and no save, telemetry or actuator effect happens. -/
theorem assign_precondition_failure_no_mutation
    (env : Env) (washTypes : List WashType) (txId : String) (now : ℚ)
    (card_id locker_id : String) (wash_type_id : Nat) (s : SysState) :
    (check_card_already_assigned s (pyStrip card_id) = true
      ∨ locker_id ∉ s.available_lockers
      ∨ washTypes.find? (fun wt => wt.id == wash_type_id) = none) →
    (assign_card_to_locker env washTypes txId now card_id locker_id wash_type_id s).success
      = false
    ∧ (assign_card_to_locker env washTypes txId now card_id locker_id wash_type_id s).state
      = s
    ∧ (assign_card_to_locker env washTypes txId now card_id locker_id wash_type_id s).effects
      = []
    ∧ (assign_card_to_locker env washTypes txId now card_id locker_id wash_type_id s).message
      = (if check_card_already_assigned s (pyStrip card_id) then
           "Card already assigned to another locker"
         else if locker_id ∉ s.available_lockers then "Locker not available"
         else "Invalid wash type") := by
  intro h
  by_cases h1 : check_card_already_assigned s (pyStrip card_id) = true
  · refine ⟨?_, ?_, ?_, ?_⟩ <;> simp [assign_card_to_locker, h1]
  · by_cases h2 : locker_id ∈ s.available_lockers
    · have h3 : washTypes.find? (fun wt => wt.id == wash_type_id) = none := by
        rcases h with h | h | h
        · exact absurd h h1
        · exact absurd h2 h
        · exact h
      refine ⟨?_, ?_, ?_, ?_⟩ <;> simp [assign_card_to_locker, h1, h2, h3]
    · refine ⟨?_, ?_, ?_, ?_⟩ <;> simp [assign_card_to_locker, h1, h2]

/-- Witness for claim C3: requesting locker 9 while only locker 2 is
free fails with the availability message and leaves the state alone. -/
theorem assign_precondition_failure_no_mutation_witness :
    ("9" ∉ (⟨[], [], ["2"]⟩ : SysState).available_lockers)
    ∧ (assign_card_to_locker { saveOk := true, telemetryOk := true } [] "t1" 0 "A1" "9" 1
        { active_cards := [], transactions := [], available_lockers := ["2"] }).success = false
    ∧ (assign_card_to_locker { saveOk := true, telemetryOk := true } [] "t1" 0 "A1" "9" 1
        { active_cards := [], transactions := [], available_lockers := ["2"] }).state
      = { active_cards := [], transactions := [], available_lockers := ["2"] } := by
  have h := assign_precondition_failure_no_mutation { saveOk := true, telemetryOk := true }
    [] "t1" 0 "A1" "9" 1 { active_cards := [], transactions := [], available_lockers := ["2"] }
    (Or.inr (Or.inl (by decide)))
  exact ⟨by decide, h.1, h.2.1⟩

/-- Claim C4: when the card is not already assigned, the pool is
non-empty, and the wash type resolves, drop_off succeeds, chooses the
first locker of the pool, appends exactly one pending transaction for
the card (with estimated completion derived from the wash type duration
when provided), records the assignment, and removes that locker from
the pool. -/
theorem drop_off_first_free_locker
    (env : Env) (washTypes : List WashType) (txId : String) (now : ℚ)
    (card_id : String) (wash_type_id : Nat) (s : SysState)
    (l : String) (rest : List String) (wt : WashType)
    (hchk : check_card_already_assigned s (pyStrip card_id) = false)
    (hpool : s.available_lockers = l :: rest)
    (hwt : washTypes.find? (fun w => w.id == wash_type_id) = some wt) :
    (drop_off env washTypes txId now card_id wash_type_id s).1.success = true
    ∧ (drop_off env washTypes txId now card_id wash_type_id s).2 = some l
    ∧ (drop_off env washTypes txId now card_id wash_type_id s).1.state.active_cards
      = s.active_cards ++ [(pyStrip card_id, { locker_id := l, transaction_id := txId })]
    ∧ (drop_off env washTypes txId now card_id wash_type_id s).1.state.available_lockers
      = rest
    ∧ (drop_off env washTypes txId now card_id wash_type_id s).1.state.transactions
      = s.transactions ++ [mkTransaction txId (pyStrip card_id) l (some wt) now]
    ∧ (mkTransaction txId (pyStrip card_id) l (some wt) now).status = "pending"
    ∧ (mkTransaction txId (pyStrip card_id) l (some wt) now).estimated_completion_time
      = wt.estimated_time.map (fun m => now + 60 * m) := by
  have hcont : dictContains s.active_cards (pyStrip card_id) = false := by
    have h := check_false_not_contains s (pyStrip card_id) hchk
    rwa [pyStrip_idem] at h
  refine ⟨?_, ?_, ?_, ?_, ?_, rfl, ?_⟩
  · simp [drop_off, assign_card_to_locker, hchk, hpool, hwt]
  · simp [drop_off, assign_card_to_locker, hchk, hpool, hwt]
  · simp [drop_off, assign_card_to_locker, hchk, hpool, hwt, dictInsert, hcont]
  · simp [drop_off, assign_card_to_locker, hchk, hpool, hwt]
  · simp [drop_off, assign_card_to_locker, hchk, hpool, hwt]
  · simp [mkTransaction]

/-- Witness for claim C4, the scenario of the specification: pool 1 and
2 free, drop off card A1 with wash type 1 from the default catalog:
success, locker 1 chosen and removed, one pending transaction added. -/
theorem drop_off_first_free_locker_witness :
    check_card_already_assigned
      { active_cards := [], transactions := [], available_lockers := ["1", "2"] }
      (pyStrip "A1") = false
    ∧ (drop_off { saveOk := true, telemetryOk := true }
        [{ id := 1, name := "Standard Wash", price := 5, estimated_time := none },
         { id := 2, name := "Delicate Wash", price := 15/2, estimated_time := none },
         { id := 3, name := "Heavy Duty", price := 10, estimated_time := none }]
        "t1" 0 "A1" 1
        { active_cards := [], transactions := [], available_lockers := ["1", "2"] }).1.success
      = true
    ∧ (drop_off { saveOk := true, telemetryOk := true }
        [{ id := 1, name := "Standard Wash", price := 5, estimated_time := none },
         { id := 2, name := "Delicate Wash", price := 15/2, estimated_time := none },
         { id := 3, name := "Heavy Duty", price := 10, estimated_time := none }]
        "t1" 0 "A1" 1
        { active_cards := [], transactions := [], available_lockers := ["1", "2"] }).2
      = some "1"
    ∧ (drop_off { saveOk := true, telemetryOk := true }
        [{ id := 1, name := "Standard Wash", price := 5, estimated_time := none },
         { id := 2, name := "Delicate Wash", price := 15/2, estimated_time := none },
         { id := 3, name := "Heavy Duty", price := 10, estimated_time := none }]
        "t1" 0 "A1" 1
        { active_cards := [], transactions := [], available_lockers := ["1", "2"] }).1.state.available_lockers
      = ["2"]
    ∧ (drop_off { saveOk := true, telemetryOk := true }
        [{ id := 1, name := "Standard Wash", price := 5, estimated_time := none },
         { id := 2, name := "Delicate Wash", price := 15/2, estimated_time := none },
         { id := 3, name := "Heavy Duty", price := 10, estimated_time := none }]
        "t1" 0 "A1" 1
        { active_cards := [], transactions := [], available_lockers := ["1", "2"] }).1.state.transactions
      = [mkTransaction "t1" (pyStrip "A1") "1"
          (some { id := 1, name := "Standard Wash", price := 5, estimated_time := none }) 0] := by
  have h := drop_off_first_free_locker { saveOk := true, telemetryOk := true }
    [{ id := 1, name := "Standard Wash", price := 5, estimated_time := none },
     { id := 2, name := "Delicate Wash", price := 15/2, estimated_time := none },
     { id := 3, name := "Heavy Duty", price := 10, estimated_time := none }]
    "t1" 0 "A1" 1
    { active_cards := [], transactions := [], available_lockers := ["1", "2"] }
    "1" ["2"] { id := 1, name := "Standard Wash", price := 5, estimated_time := none }
    (by decide) rfl rfl
  exact ⟨by decide, h.1, h.2.1, h.2.2.2.1, h.2.2.2.2.1⟩

/-- Claim C6: when an active assignment resolves for the card but no
transaction matches its recorded transaction id and no non-completed
transaction matches the card id, process_pickup force-resets: it
succeeds, leaves the transaction list untouched, drops the assignment
entry, and returns the referenced locker to the pool. -/
theorem process_pickup_force_reset (env : Env) (now : ℚ) (card_id : String)
    (s : SysState) (c : String) (info : CardInfo)
    (hr : resolveActive s.active_cards card_id = some (c, info))
    (h1 : ∀ t ∈ s.transactions, t.transaction_id ≠ info.transaction_id)
    (h2 : ∀ t ∈ s.transactions, ¬(t.card_id = c ∧ t.status ≠ "completed")) :
    (process_pickup env now card_id s).success = true
    ∧ (process_pickup env now card_id s).state.transactions = s.transactions
    ∧ (process_pickup env now card_id s).state.active_cards = dictErase s.active_cards c
    ∧ (∀ p ∈ (process_pickup env now card_id s).state.active_cards, p.1 ≠ c)
    ∧ info.locker_id ∈ (process_pickup env now card_id s).state.available_lockers
    ∧ (process_pickup env now card_id s).message
      = "Locker " ++ info.locker_id ++ " unlocked and reset" := by
  have hc1 : completeFirst (fun t => t.transaction_id == info.transaction_id) now
      s.transactions = none := by
    rw [completeFirst_eq_none]
    intro t ht
    simpa using h1 t ht
  have hc2 : completeFirst (fun t => t.card_id == c && t.status != "completed") now
      s.transactions = none := by
    rw [completeFirst_eq_none]
    intro t ht
    by_cases hcd : t.card_id = c
    · have hst : t.status = "completed" := by
        by_contra hne
        exact h2 t ht ⟨hcd, hne⟩
      simp [hcd, hst]
    · simp [hcd]
  have hcont : dictContains s.active_cards c = true :=
    dictContains_of_key_mem _ _ _ (resolveActive_mem _ _ _ _ hr)
  refine ⟨?_, ?_, ?_, ?_, ?_, ?_⟩
  · simp [process_pickup, hr, hc1, hc2, hcont]
  · simp [process_pickup, hr, hc1, hc2, hcont]
  · simp [process_pickup, hr, hc1, hc2, hcont]
  · intro p hp
    simp only [process_pickup, hr, hc1, hc2, hcont, if_true] at hp
    exact (mem_dictErase _ _ _ |>.mp hp).2
  · simp only [process_pickup, hr, hc1, hc2, hcont, if_true]
    exact mem_addIfAbsent_self _ _
  · simp [process_pickup, hr, hc1, hc2, hcont]

/-- Witness for claim C6: card A1 is assigned to locker 1 under
transaction t1, but the transaction list is empty; pickup force-resets
the card, keeps the empty transaction list, and frees locker 1. -/
theorem process_pickup_force_reset_witness :
    resolveActive [("A1", { locker_id := "1", transaction_id := "t1" })] "A1"
      = some ("A1", { locker_id := "1", transaction_id := "t1" })
    ∧ (process_pickup { saveOk := true, telemetryOk := true } 0 "A1"
        { active_cards := [("A1", { locker_id := "1", transaction_id := "t1" })],
          transactions := [], available_lockers := ["2"] }).success = true
    ∧ (process_pickup { saveOk := true, telemetryOk := true } 0 "A1"
        { active_cards := [("A1", { locker_id := "1", transaction_id := "t1" })],
          transactions := [], available_lockers := ["2"] }).state.transactions = []
    ∧ "1" ∈ (process_pickup { saveOk := true, telemetryOk := true } 0 "A1"
        { active_cards := [("A1", { locker_id := "1", transaction_id := "t1" })],
          transactions := [], available_lockers := ["2"] }).state.available_lockers := by
  have h := process_pickup_force_reset { saveOk := true, telemetryOk := true } 0 "A1"
    { active_cards := [("A1", { locker_id := "1", transaction_id := "t1" })],
      transactions := [], available_lockers := ["2"] }
    "A1" { locker_id := "1", transaction_id := "t1" }
    (by decide) (by simp) (by simp)
  exact ⟨by decide, h.1, h.2.1, h.2.2.2.2.1⟩

theorem pickup_success_shape (env : Env) (now : ℚ) (card_id : String) (s : SysState)
    (h : (process_pickup env now card_id s).success = true) :
    ∃ c info, resolveActive s.active_cards card_id = some (c, info)
      ∧ (process_pickup env now card_id s).state.active_cards
        = dictErase s.active_cards c := by
  cases hr : resolveActive s.active_cards card_id with
  | none => simp [process_pickup, hr] at h
  | some p =>
    obtain ⟨c, info⟩ := p
    refine ⟨c, info, rfl, ?_⟩
    have hcont : dictContains s.active_cards c = true :=
      dictContains_of_key_mem _ _ _ (resolveActive_mem _ _ _ _ hr)
    cases h1 : completeFirst (fun t => t.transaction_id == info.transaction_id) now
        s.transactions with
    | some r => simp [process_pickup, hr, h1]
    | none =>
      cases h2 : completeFirst (fun t => t.card_id == c && t.status != "completed") now
          s.transactions with
      | some r => simp [process_pickup, hr, h1, h2, hcont]
      | none => simp [process_pickup, hr, h1, h2, hcont]

theorem resolveActive_erase_none (active : List (String × CardInfo))
    (card c : String) (info : CardInfo)
    (hu : (active.filter (fun p => pyLower p.1 == pyLower card)).length ≤ 1)
    (hr : resolveActive active card = some (c, info)) :
    resolveActive (dictErase active c) card = none := by
  have hmem : (c, info) ∈ active := resolveActive_mem _ _ _ _ hr
  have hlow : pyLower c = pyLower card := resolveActive_lower _ _ _ _ hr
  have hcfilter : (c, info) ∈ active.filter (fun p => pyLower p.1 == pyLower card) := by
    rw [List.mem_filter]
    exact ⟨hmem, by simp [hlow]⟩
  have key : ∀ q ∈ dictErase active c, (pyLower q.1 == pyLower card) = false := by
    intro q hq
    cases hqq : (pyLower q.1 == pyLower card) with
    | false => rfl
    | true =>
      have hqa : q ∈ active := (mem_dictErase _ _ _ |>.mp hq).1
      have hqf : q ∈ active.filter (fun p => pyLower p.1 == pyLower card) :=
        List.mem_filter.mpr ⟨hqa, hqq⟩
      have hqc : q = (c, info) := length_le_one_eq _ hu _ _ hqf hcfilter
      have hne : q.1 ≠ c := (mem_dictErase _ _ _ |>.mp hq).2
      rw [hqc] at hne
      exact absurd rfl hne
  have hdc : dictContains (dictErase active c) card = false := by
    cases hb : dictContains (dictErase active c) card with
    | false => rfl
    | true =>
      obtain ⟨q, hq, hqe⟩ := List.any_eq_true.mp hb
      have hq1 : q.1 = card := by simpa using hqe
      have : (pyLower q.1 == pyLower card) = true := by simp [hq1]
      rw [key q hq] at this
      cases this
  have hf : (dictErase active c).find? (fun p => pyLower p.1 == pyLower card) = none := by
    rw [List.find?_eq_none]
    intro q hq
    simp [key q hq]
  simp [resolveActive, hdc, hf]

/-- Claim C5: after any successful pickup of a card (under the natural
uniqueness of case-insensitive key matches that the assignment checks
maintain), a second pickup of the same card fails with the message of a
card not associated with any locker and mutates nothing: the state is
returned unchanged and no effect happens. -/
theorem process_pickup_idempotent (e1 e2 : Env) (now1 now2 : ℚ) (card_id : String)
    (s : SysState)
    (hu : (s.active_cards.filter (fun p => pyLower p.1 == pyLower card_id)).length ≤ 1)
    (hs : (process_pickup e1 now1 card_id s).success = true) :
    process_pickup e2 now2 card_id (process_pickup e1 now1 card_id s).state
      = { success := false, message := "Card not associated with any locker",
          state := (process_pickup e1 now1 card_id s).state, effects := [] } := by
  obtain ⟨c, info, hr, hactive⟩ := pickup_success_shape e1 now1 card_id s hs
  generalize hs2 : (process_pickup e1 now1 card_id s).state = s2 at hactive ⊢
  have hnone : resolveActive s2.active_cards card_id = none := by
    rw [hactive]
    exact resolveActive_erase_none _ _ _ _ hu hr
  simp [process_pickup, hnone]

/-- Witness for claim C5: card A1 is assigned to locker 1 with a pending
transaction; the first pickup succeeds, and the second pickup of A1
fails with the not-associated message and leaves the state unchanged. -/
theorem process_pickup_idempotent_witness :
    (({ active_cards := [("A1", { locker_id := "1", transaction_id := "t1" })],
        transactions := [mkTransaction "t1" "A1" "1" none 0],
        available_lockers := ["2"] } : SysState).active_cards.filter
          (fun p => pyLower p.1 == pyLower "A1")).length ≤ 1
    ∧ (process_pickup { saveOk := true, telemetryOk := true } 3 "A1"
        { active_cards := [("A1", { locker_id := "1", transaction_id := "t1" })],
          transactions := [mkTransaction "t1" "A1" "1" none 0],
          available_lockers := ["2"] }).success = true
    ∧ process_pickup { saveOk := true, telemetryOk := true } 5 "A1"
        (process_pickup { saveOk := true, telemetryOk := true } 3 "A1"
          { active_cards := [("A1", { locker_id := "1", transaction_id := "t1" })],
            transactions := [mkTransaction "t1" "A1" "1" none 0],
            available_lockers := ["2"] }).state
      = { success := false, message := "Card not associated with any locker",
          state := (process_pickup { saveOk := true, telemetryOk := true } 3 "A1"
            { active_cards := [("A1", { locker_id := "1", transaction_id := "t1" })],
              transactions := [mkTransaction "t1" "A1" "1" none 0],
              available_lockers := ["2"] }).state,
          effects := [] } := by
  refine ⟨by decide, ?_, ?_⟩
  · norm_num [process_pickup, resolveActive, dictContains, completeFirst, mkTransaction]
  · exact process_pickup_idempotent { saveOk := true, telemetryOk := true }
      { saveOk := true, telemetryOk := true } 3 5 "A1"
      { active_cards := [("A1", { locker_id := "1", transaction_id := "t1" })],
        transactions := [mkTransaction "t1" "A1" "1" none 0],
        available_lockers := ["2"] }
      (by decide)
      (by norm_num [process_pickup, resolveActive, dictContains, completeFirst, mkTransaction])

theorem inv_assign (cfg : List String) (env : Env) (washTypes : List WashType)
    (txId : String) (now : ℚ) (card_id locker_id : String) (wash_type_id : Nat)
    (s : SysState) (h : StateInv cfg s) :
    StateInv cfg
      (assign_card_to_locker env washTypes txId now card_id locker_id wash_type_id s).state := by
  by_cases h1 : check_card_already_assigned s (pyStrip card_id) = true
  · simpa [assign_card_to_locker, h1] using h
  · by_cases h2 : locker_id ∈ s.available_lockers
    · cases hw : washTypes.find? (fun wt => wt.id == wash_type_id) with
      | none => simpa [assign_card_to_locker, h1, h2, hw] using h
      | some wt =>
        have hcont : dictContains s.active_cards (pyStrip card_id) = false := by
          have hx := check_false_not_contains s (pyStrip card_id) (by simpa using h1)
          rwa [pyStrip_idem] at hx
        have hnk : pyStrip card_id ∉ s.active_cards.map Prod.fst := by
          intro hmem
          rw [← dictContains_iff] at hmem
          rw [hcont] at hmem
          cases hmem
        have hnotref : ¬ refersTo s.active_cards locker_id := h.pool_disj locker_id h2
        have hstate :
            (assign_card_to_locker env washTypes txId now card_id locker_id wash_type_id s).state
            = { active_cards := s.active_cards
                  ++ [(pyStrip card_id, { locker_id := locker_id, transaction_id := txId })],
                transactions := s.transactions
                  ++ [mkTransaction txId (pyStrip card_id) locker_id (some wt) now],
                available_lockers := s.available_lockers.erase locker_id } := by
          simp [assign_card_to_locker, h1, h2, hw, dictInsert, hcont]
        rw [hstate]
        refine ⟨?_, ?_, ?_, ?_, ?_, ?_⟩
        · intro L hL hcontra
          have hLpool : L ∈ s.available_lockers := List.mem_of_mem_erase hL
          have hLne : L ≠ locker_id := ((h.pool_nodup.mem_erase_iff).mp hL).1
          obtain ⟨p, hp, hpl⟩ := hcontra
          rcases List.mem_append.mp hp with hp | hp
          · exact h.pool_disj L hLpool ⟨p, hp, hpl⟩
          · simp at hp
            rw [hp] at hpl
            exact hLne hpl.symm
        · intro L hL
          rcases h.pool_cover L hL with hp | href
          · by_cases hEq : L = locker_id
            · right
              refine ⟨(pyStrip card_id, { locker_id := locker_id, transaction_id := txId }),
                ?_, ?_⟩
              · simp
              · simp [hEq]
            · left
              exact (List.mem_erase_of_ne hEq).mpr hp
          · right
            obtain ⟨p, hp, hpl⟩ := href
            exact ⟨p, List.mem_append.mpr (Or.inl hp), hpl⟩
        · intro p hp
          rcases List.mem_append.mp hp with hp | hp
          · obtain ⟨t, ht, hid⟩ := h.tx_exists p hp
            exact ⟨t, List.mem_append.mpr (Or.inl ht), hid⟩
          · simp at hp
            refine ⟨mkTransaction txId (pyStrip card_id) locker_id (some wt) now, by simp, ?_⟩
            rw [hp]
            simp [mkTransaction]
        · rw [List.map_append, List.nodup_append]
          refine ⟨h.keys_nodup, by simp, ?_⟩
          intro a ha
          simp only [List.map_cons, List.map_nil, List.mem_singleton]
          rintro rfl
          exact hnk ha
        · rw [List.map_append, List.nodup_append]
          refine ⟨h.lockers_nodup, by simp, ?_⟩
          intro a ha
          simp only [List.map_cons, List.map_nil, List.mem_singleton]
          rintro rfl
          obtain ⟨p, hp, hpl⟩ := List.mem_map.mp ha
          exact hnotref ⟨p, hp, hpl⟩
        · exact h.pool_nodup.erase _
    · simpa [assign_card_to_locker, h1, h2] using h

theorem inv_pickup (cfg : List String) (env : Env) (now : ℚ) (card_id : String)
    (s : SysState) (h : StateInv cfg s) :
    StateInv cfg (process_pickup env now card_id s).state := by
  cases hr : resolveActive s.active_cards card_id with
  | none => simpa [process_pickup, hr] using h
  | some p =>
    obtain ⟨c, info⟩ := p
    have hmem : (c, info) ∈ s.active_cards := resolveActive_mem _ _ _ _ hr
    have hcont : dictContains s.active_cards c = true := dictContains_of_key_mem _ _ _ hmem
    have htx : ∃ t ∈ s.transactions, t.transaction_id = info.transaction_id :=
      h.tx_exists _ hmem
    have hex : ∃ r, completeFirst (fun t => t.transaction_id == info.transaction_id) now
        s.transactions = some r := by
      apply completeFirst_exists
      obtain ⟨t, ht, hid⟩ := htx
      exact ⟨t, ht, by simp [hid]⟩
    obtain ⟨r, hcf⟩ := hex
    have hids := completeFirst_ids _ now s.transactions r hcf
    have hnotpool : info.locker_id ∉ s.available_lockers := by
      intro hp
      exact h.pool_disj _ hp ⟨(c, info), hmem, rfl⟩
    have hpool : addIfAbsent s.available_lockers info.locker_id
        = s.available_lockers ++ [info.locker_id] := by
      rw [addIfAbsent, if_neg]
      intro hcon
      exact hnotpool (by simpa using hcon)
    have hstate : (process_pickup env now card_id s).state
        = { active_cards := dictErase s.active_cards c,
            transactions := r.2,
            available_lockers := s.available_lockers ++ [info.locker_id] } := by
      simp [process_pickup, hr, hcf, hpool]
    rw [hstate]
    have keyuniq : ∀ q ∈ s.active_cards, q.1 = c → q = (c, info) := by
      intro q hq hq1
      exact List.inj_on_of_nodup_map h.keys_nodup hq hmem (by simp [hq1])
    have lockuniq : ∀ q ∈ s.active_cards, q.2.locker_id = info.locker_id → q = (c, info) := by
      intro q hq hql
      exact List.inj_on_of_nodup_map h.lockers_nodup hq hmem (by simp [hql])
    refine ⟨?_, ?_, ?_, ?_, ?_, ?_⟩
    · intro L hL hcontra
      obtain ⟨q, hq, hql⟩ := hcontra
      have hq' := (mem_dictErase _ _ _).mp hq
      rcases List.mem_append.mp hL with hLp | hLsing
      · exact h.pool_disj L hLp ⟨q, hq'.1, hql⟩
      · simp at hLsing
        rw [hLsing] at hql
        have hqe := lockuniq q hq'.1 hql
        rw [hqe] at hq'
        exact hq'.2 rfl
    · intro L hL
      rcases h.pool_cover L hL with hLp | href
      · left
        exact List.mem_append.mpr (Or.inl hLp)
      · obtain ⟨q, hq, hql⟩ := href
        by_cases hqc : q.1 = c
        · left
          have hqe := keyuniq q hq hqc
          have hil : info.locker_id = L := by
            rw [hqe] at hql
            exact hql
          rw [← hil]
          exact List.mem_append.mpr (Or.inr (by simp))
        · right
          exact ⟨q, (mem_dictErase _ _ _).mpr ⟨hq, hqc⟩, hql⟩
    · intro q hq
      have hq' := (mem_dictErase _ _ _).mp hq
      obtain ⟨t, ht, hid⟩ := h.tx_exists q hq'.1
      have hmm : t.transaction_id ∈ r.2.map (fun t => t.transaction_id) := by
        rw [hids]
        exact List.mem_map.mpr ⟨t, ht, rfl⟩
      obtain ⟨u, hu, huid⟩ := List.mem_map.mp hmm
      exact ⟨u, hu, by rw [huid, hid]⟩
    · exact h.keys_nodup.sublist ((List.filter_sublist _).map _)
    · exact h.lockers_nodup.sublist ((List.filter_sublist _).map _)
    · rw [List.nodup_append]
      refine ⟨h.pool_nodup, by simp, ?_⟩
      intro a ha
      simp only [List.mem_singleton]
      rintro rfl
      exact hnotpool ha

theorem reachable_inv (cfg : List String) (hnd : cfg.Nodup) (s : SysState)
    (h : Reachable cfg s) : StateInv cfg s := by
  induction h with
  | start =>
    refine ⟨?_, ?_, ?_, ?_, ?_, ?_⟩
    · rintro L hL ⟨p, hp, _⟩
      cases hp
    · exact fun L hL => Or.inl hL
    · rintro p hp
      cases hp
    · simp
    · simp
    · exact hnd
  | assign env washTypes txId now card_id locker_id wash_type_id s hs ih =>
    exact inv_assign cfg env washTypes txId now card_id locker_id wash_type_id s ih
  | pickup env now card_id s hs ih =>
    exact inv_pickup cfg env now card_id s ih

/-- Claim C9: in every state reachable from the fresh database by
assignments and pickups, a configured locker is in the available pool
exactly when no active assignment references it, so each configured
locker is free or occupied, never both and never neither. -/
theorem locker_pool_partition (cfg : List String) (hnd : cfg.Nodup) (s : SysState)
    (hreach : Reachable cfg s) (L : String) (hL : L ∈ cfg) :
    L ∈ s.available_lockers ↔ ¬ refersTo s.active_cards L := by
  have h := reachable_inv cfg hnd s hreach
  constructor
  · exact fun hp => h.pool_disj L hp
  · intro hn
    rcases h.pool_cover L hL with hp | href
    · exact hp
    · exact absurd href hn

/-- Witness for claim C9 at the fresh two-locker configuration. -/
theorem locker_pool_partition_witness :
    (["1", "2"] : List String).Nodup
    ∧ Reachable ["1", "2"]
        { active_cards := [], transactions := [], available_lockers := ["1", "2"] }
    ∧ "1" ∈ (["1", "2"] : List String)
    ∧ ("1" ∈ (⟨[], [], ["1", "2"]⟩ : SysState).available_lockers
        ↔ ¬ refersTo ([] : List (String × CardInfo)) "1") := by
  refine ⟨by decide, Reachable.start, by decide, ?_⟩
  exact locker_pool_partition ["1", "2"] (by decide)
    { active_cards := [], transactions := [], available_lockers := ["1", "2"] }
    Reachable.start "1" (by decide)
